import Mathlib

/-!
Verification development for the multi-endpoint ZMQ connection router
(`core/zmq_router.py` of the mt5_zmq_trader repository).

The router's mutable state (the five per-role socket maps, the client
registry `_clients`, the correlation tables `_responses` and
`_response_events`, the poller registration set and the socket control
queue) is shallowly embedded as a Lean structure over association lists,
and the router's operations (`_process_message`, `_teardown_single_broker_sockets`,
`_setup_single_broker_sockets`, `send_command_to_broker`, `stop`, and the
frame repair plus JSON decode step of `_receive_loop`) are translated into
pure state-passing functions.  Python dictionaries are modelled by
association lists with unique keys; `dict.pop`/`del` is `aerase` (which
removes every binding for the key, agreeing with `del` on the unique-key
lists that actually arise), and `d[k] = v` is `ainsert` (replace in place
or append).  The asyncio suspension inside `send_command_to_broker` is
modelled by an explicit list of events (messages processed by the receive
loop, or the force-signal issued by `stop`) that occur during the 5-unit
wait.  Wall-clock timeouts appear as the code's literal constants.
-/

namespace ZmqRouterModel

/-! ## Association-list primitives (model of Python `dict`) -/

def alookup {β : Type} : List (String × β) → String → Option β
  | [], _ => none
  | (k, v) :: rest, key => if k = key then some v else alookup rest key

def ainsert {β : Type} : List (String × β) → String → β → List (String × β)
  | [], key, v => [(key, v)]
  | (k, v') :: rest, key, v =>
    if k = key then (key, v) :: rest else (k, v') :: ainsert rest key v

def aerase {β : Type} : List (String × β) → String → List (String × β)
  | [], _ => []
  | (k, v) :: rest, key =>
    if k = key then aerase rest key else (k, v) :: aerase rest key

theorem alookup_ainsert_self {β : Type} (m : List (String × β)) (k : String) (v : β) :
    alookup (ainsert m k v) k = some v := by
  induction m with
  | nil => simp [ainsert, alookup]
  | cons p rest ih =>
    obtain ⟨k', v'⟩ := p
    by_cases h : k' = k
    · simp [ainsert, alookup, h]
    · simp [ainsert, alookup, h, ih]

theorem alookup_ainsert_ne {β : Type} (m : List (String × β)) (k k' : String) (v : β)
    (h : k' ≠ k) : alookup (ainsert m k' v) k = alookup m k := by
  induction m with
  | nil => simp [ainsert, alookup, h]
  | cons p rest ih =>
    obtain ⟨k₀, v₀⟩ := p
    by_cases h0 : k₀ = k'
    · subst h0
      simp [ainsert, alookup, h]
    · simp only [ainsert, if_neg h0]
      by_cases h1 : k₀ = k
      · simp [alookup, h1]
      · simp [alookup, h1, ih]

theorem alookup_aerase_self {β : Type} (m : List (String × β)) (k : String) :
    alookup (aerase m k) k = none := by
  induction m with
  | nil => simp [aerase, alookup]
  | cons p rest ih =>
    obtain ⟨k', v'⟩ := p
    by_cases h : k' = k
    · simp [aerase, h, ih]
    · simp [aerase, alookup, h, ih]

theorem aerase_of_alookup_none {β : Type} (m : List (String × β)) (k : String)
    (h : alookup m k = none) : aerase m k = m := by
  induction m with
  | nil => simp [aerase]
  | cons p rest ih =>
    obtain ⟨k', v'⟩ := p
    by_cases h0 : k' = k
    · simp [alookup, h0] at h
    · simp only [alookup, if_neg h0] at h
      simp [aerase, h0, ih h]

/-! ## JSON values (model of the dictionaries produced by `json.loads`) -/

inductive Jv : Type where
  | null : Jv
  | bool : Bool → Jv
  | num : Int → Jv
  | str : String → Jv
  | arr : List Jv → Jv
  | obj : List (String × Jv) → Jv

/-- Field access `message_data.get(key)` restricted to string-valued fields
(the router only ever compares such fields against string literals, so a
non-string or absent field behaves like an absent one). -/
def Jv.getStr? : Jv → String → Option String
  | .obj fs, key =>
    match alookup fs key with
    | some (.str s) => some s
    | _ => none
  | _, _ => none

/-- Python truthiness of a JSON value (used for `if payload:`). -/
def Jv.truthy : Jv → Bool
  | .null => false
  | .bool b => b
  | .num n => if n = 0 then false else true
  | .str s => if s = "" then false else true
  | .arr [] => false
  | .arr (_ :: _) => true
  | .obj [] => false
  | .obj (_ :: _) => true

/-! ## JSON text decoding (model of `json.loads`)

A fuel-indexed recursive-descent parser over the character list of the
input.  It covers the JSON fragment the wire protocol uses: objects,
arrays, strings with the single-character escapes, integer numerals and
the three literals.  Duplicate object keys follow Python semantics (the
later value wins, at the first occurrence's position) via `ainsert`. -/

def quoteChar : Char := Char.ofNat 34

def backslashChar : Char := Char.ofNat 92

def lbraceChar : Char := Char.ofNat 123

def rbraceChar : Char := Char.ofNat 125

def isWsChar (c : Char) : Bool :=
  c = ' ' || c = '\t' || c = '\n' || c = '\r'

def skipWs : List Char → List Char
  | [] => []
  | c :: cs => if isWsChar c then skipWs cs else c :: cs

/-- Decode a single-character JSON string escape. -/
def escChar (c : Char) : Option Char :=
  if c = quoteChar then some quoteChar
  else if c = backslashChar then some backslashChar
  else if c = '/' then some '/'
  else if c = 'n' then some '\n'
  else if c = 't' then some '\t'
  else if c = 'r' then some '\r'
  else if c = 'b' then some (Char.ofNat 8)
  else if c = 'f' then some (Char.ofNat 12)
  else none

/-- Parse the body of a string literal (opening quote already consumed);
returns the characters and the remaining input after the closing quote. -/
def parseStringChars : List Char → Option (List Char × List Char)
  | [] => none
  | c :: rest =>
    if c = quoteChar then some ([], rest)
    else if c = backslashChar then
      match rest with
      | [] => none
      | e :: rest2 =>
        match escChar e with
        | none => none
        | some ec =>
          match parseStringChars rest2 with
          | none => none
          | some (cs, r) => some (ec :: cs, r)
    else
      match parseStringChars rest with
      | none => none
      | some (cs, r) => some (c :: cs, r)

/-- Consume a run of decimal digits, accumulating their value. -/
def parseDigits : Nat → List Char → Nat × List Char
  | acc, [] => (acc, [])
  | acc, c :: rest =>
    if c.isDigit then parseDigits (acc * 10 + (c.toNat - 48)) rest
    else (acc, c :: rest)

mutual

def parseVal : Nat → List Char → Option (Jv × List Char)
  | 0, _ => none
  | fuel + 1, cs =>
    match skipWs cs with
    | [] => none
    | c :: rest =>
      if c = quoteChar then
        match parseStringChars rest with
        | none => none
        | some (s, r) => some (.str ⟨s⟩, r)
      else if c = lbraceChar then
        match skipWs rest with
        | c2 :: rest2 =>
          if c2 = rbraceChar then some (.obj [], rest2)
          else
            match parseObjRest fuel [] (c2 :: rest2) with
            | none => none
            | some (fs, r) => some (.obj fs, r)
        | [] => none
      else if c = '[' then
        match skipWs rest with
        | c2 :: rest2 =>
          if c2 = ']' then some (.arr [], rest2)
          else
            match parseArrRest fuel [] (c2 :: rest2) with
            | none => none
            | some (vs, r) => some (.arr vs, r)
        | [] => none
      else if c = '-' then
        match rest with
        | d :: rest2 =>
          if d.isDigit then
            let p := parseDigits (d.toNat - 48) rest2
            some (.num (-(p.1 : Int)), p.2)
          else none
        | [] => none
      else if c.isDigit then
        let p := parseDigits (c.toNat - 48) rest
        some (.num (p.1 : Int), p.2)
      else
        match c :: rest with
        | 't' :: 'r' :: 'u' :: 'e' :: r => some (.bool true, r)
        | 'f' :: 'a' :: 'l' :: 's' :: 'e' :: r => some (.bool false, r)
        | 'n' :: 'u' :: 'l' :: 'l' :: r => some (.null, r)
        | _ => none

/-- Parse the members of a non-empty object, starting at a key. -/
def parseObjRest : Nat → List (String × Jv) → List Char → Option (List (String × Jv) × List Char)
  | 0, _, _ => none
  | fuel + 1, acc, cs =>
    match skipWs cs with
    | c :: rest =>
      if c = quoteChar then
        match parseStringChars rest with
        | none => none
        | some (kcs, r1) =>
          match skipWs r1 with
          | ':' :: r2 =>
            match parseVal fuel r2 with
            | none => none
            | some (v, r3) =>
              let acc' := ainsert acc ⟨kcs⟩ v
              match skipWs r3 with
              | ',' :: r4 => parseObjRest fuel acc' r4
              | d :: r4 => if d = rbraceChar then some (acc', r4) else none
              | [] => none
          | _ => none
      else none
    | [] => none

/-- Parse the elements of a non-empty array, starting at a value. -/
def parseArrRest : Nat → List Jv → List Char → Option (List Jv × List Char)
  | 0, _, _ => none
  | fuel + 1, acc, cs =>
    match parseVal fuel cs with
    | none => none
    | some (v, r1) =>
      match skipWs r1 with
      | ',' :: r2 => parseArrRest fuel (acc ++ [v]) r2
      | ']' :: r2 => some (acc ++ [v], r2)
      | _ => none

end

/-- Model of `json.loads` on the whole frame text: parse one value and
require only trailing whitespace after it. -/
def parseJsonText (s : String) : Option Jv :=
  match parseVal (s.length + 2) s.data with
  | some (v, rest) => if skipWs rest = [] then some v else none
  | none => none

/-! ## Frame repair (of `_receive_loop`, lines 424-431)

The received bytes are decoded to text; if the text does not start with
the opening brace the code prepends one, and if (after that) it does not
end with the closing brace the code appends one, before `json.loads`. -/

def strStartsWith (s pre : String) : Bool := pre.data.isPrefixOf s.data

def strEndsWith (s suf : String) : Bool := suf.data.isSuffixOf s.data

def obStr : String := "\x7b"

def cbStr : String := "\x7d"

def repairFrame (s : String) : String :=
  let s1 := if strStartsWith s obStr then s else obStr ++ s
  if strEndsWith s1 cbStr then s1 else s1 ++ cbStr

/-- Frame repair followed by JSON decoding, as `_receive_loop` applies it
to each received frame before `_process_message`. -/
def decodeFrame (raw : String) : Option Jv := parseJsonText (repairFrame raw)

/-! ## Router state -/

/-- A ZMQ socket handle: an identity (fresh per created socket) and its
`closed` flag. -/
structure Sock : Type where
  sid : Nat
  closed : Bool
deriving DecidableEq

abbrev SockMap : Type := List (String × Sock)

/-- The per-broker port configuration passed with a CONNECT command
(`config.get('admin_port')` etc.; a missing or zero port is falsy). -/
structure BrokerConfig : Type where
  admin_port : Option Nat := none
  data_port : Option Nat := none
  live_port : Option Nat := none
  trade_port : Option Nat := none
  str_port : Option Nat := none
deriving DecidableEq

inductive PortRole : Type where
  | admin | data | live | trade | str
deriving DecidableEq

/-- An entry of the socket control queue `_socket_control_queue`. -/
inductive ControlCmd : Type where
  | connect (key : String) (cfg : BrokerConfig)
  | disconnect (key : String)
deriving DecidableEq

/-- The mutable state of a `ZmqRouter` instance. -/
structure RouterState : Type where
  running : Bool := false
  /-- Field `_clients`: broker key claimed in a REGISTER → connection identifier. -/
  clients : List (String × String) := []
  /-- Field `_responses`: request id → stored response envelope. -/
  responses : List (String × Jv) := []
  /-- Field `_response_events`: request id → whether the one-shot event is set. -/
  responseEvents : List (String × Bool) := []
  /-- Map `self.sockets` (AdminPort). -/
  sockets : SockMap := []
  /-- Map `self.data_sockets` (DataPort). -/
  dataSockets : SockMap := []
  /-- Map `self.live_sockets` (LivePort). -/
  liveSockets : SockMap := []
  /-- Map `self.trade_sockets` (TradePort). -/
  tradeSockets : SockMap := []
  /-- Map `self.stream_sockets` (StrPort). -/
  streamSockets : SockMap := []
  /-- The poller's registration set, by socket identity. -/
  poller : List Nat := []
  /-- Queue `_socket_control_queue` contents, front first. -/
  controlQueue : List ControlCmd := []
  /-- Envelopes handed to `_message_handler.handle_zmq_message`, in order. -/
  handlerLog : List (String × Jv) := []
  /-- Whether `_message_handler` is set (non-None). -/
  handlerSet : Bool := true
  /-- Fresh identity supply for sockets created by `context.socket`. -/
  nextSid : Nat := 0

def emptyRouter : RouterState := {}

/-- Dispatch to `_message_handler.handle_zmq_message` when a handler is set. -/
def forward (st : RouterState) (conn : String) (m : Jv) : RouterState :=
  if st.handlerSet then { st with handlerLog := st.handlerLog ++ [(conn, m)] } else st

/-- The synthesized INTERNAL/CLIENT_UNREGISTERED envelope (lines 237-242). -/
def unregNotification (removed : Option String) (conn : String) : Jv :=
  .obj [("type", .str "INTERNAL"), ("event", .str "CLIENT_UNREGISTERED"),
        ("broker_key", match removed with | some k => .str k | none => .null),
        ("zmq_id_hex", .str conn)]

/-- Reverse lookup used by the UNREGISTER branch when no broker key is
claimed: scan `_clients` in order, remove the first entry whose connection
identifier matches, and report its key. -/
def reverseLookupRemove : List (String × String) → String → Option String × List (String × String)
  | [], _ => (none, [])
  | (k, zid) :: rest, conn =>
    if zid = conn then (some k, rest)
    else
      let r := reverseLookupRemove rest conn
      (r.1, (k, zid) :: r.2)

/-- Model of `ZmqRouter._process_message` (lines 198-256).  `broker_key`
is the second argument of the Python method: the key of the socket the
message arrived on, which the classifier uses as the connection identifier. -/
def process_message (st : RouterState) (message_data : Jv) (broker_key : String) : RouterState :=
  let msg_type := message_data.getStr? "type"
  let event := message_data.getStr? "event"
  let broker_key_msg := message_data.getStr? "broker_key"
  let request_id := message_data.getStr? "request_id"
  if msg_type = some "SYSTEM" ∧ event = some "REGISTER" then
    match broker_key_msg with
    | some bkm =>
      if bkm = "" then st
      else forward { st with clients := ainsert st.clients bkm broker_key } broker_key message_data
    | none => st
  else if msg_type = some "SYSTEM" ∧ event = some "UNREGISTER" then
    let rr : Option String × List (String × String) :=
      match broker_key_msg with
      | some bkm =>
        if bkm = "" then reverseLookupRemove st.clients broker_key
        else if alookup st.clients bkm = some broker_key then (some bkm, aerase st.clients bkm)
        else (none, st.clients)
      | none => reverseLookupRemove st.clients broker_key
    forward { st with clients := rr.2 } broker_key (unregNotification rr.1 broker_key)
  else if msg_type = some "RESPONSE" ∨ msg_type = some "STREAM" then
    let st1 :=
      match request_id with
      | some rid =>
        if rid ≠ "" ∧ msg_type = some "RESPONSE" then
          let st' := { st with responses := ainsert st.responses rid message_data }
          if (alookup st'.responseEvents rid).isSome then
            { st' with responseEvents := ainsert st'.responseEvents rid true }
          else st'
        else st
      | none => st
    forward st1 broker_key message_data
  else
    forward st broker_key message_data

/-- One delivery handled by `_receive_loop` (lines 422-443): decode the
frame after repair; a frame that fails to decode, or decodes to a
non-object (so that the first `.get` raises and is caught at line 441),
is dropped and the loop continues with the state unchanged. -/
def receiveStep (st : RouterState) (broker_key : String) (raw : String) : RouterState :=
  match decodeFrame raw with
  | some (.obj fs) => process_message st (.obj fs) broker_key
  | some _ => st
  | none => st

/-! ## Channel lifecycle (`_teardown_single_broker_sockets`, lines 359-390,
and `_setup_single_broker_sockets`, lines 260-357) -/

/-- Teardown of one role's map: `socket_dict.pop(broker_key, None)`; if a
socket was there and is not already closed, unregister it from the poller
and close it.  Every exception on this path is caught and logged, so the
function is total. -/
def teardownOne (poller : List Nat) (m : SockMap) (key : String) : List Nat × SockMap :=
  match alookup m key with
  | none => (poller, m)
  | some sock =>
    if sock.closed then (poller, aerase m key)
    else (poller.erase sock.sid, aerase m key)

/-- Model of `_teardown_single_broker_sockets`: the five role maps are
processed in the order AdminPort, DataPort, LivePort, TradePort, StrPort. -/
def teardown_single_broker_sockets (st : RouterState) (key : String) : RouterState :=
  let r1 := teardownOne st.poller st.sockets key
  let r2 := teardownOne r1.1 st.dataSockets key
  let r3 := teardownOne r2.1 st.liveSockets key
  let r4 := teardownOne r3.1 st.tradeSockets key
  let r5 := teardownOne r4.1 st.streamSockets key
  { st with poller := r5.1, sockets := r1.2, dataSockets := r2.2,
            liveSockets := r3.2, tradeSockets := r4.2, streamSockets := r5.2 }

/-- Opening one role's socket during setup.  A missing (or zero, hence
falsy) port skips the role; `ok` tells whether the connect attempt
succeeds — on ZMQError the freshly created socket is closed and dropped,
on success it is registered with the poller and stored in the role map. -/
def connectRole (nextSid : Nat) (poller : List Nat) (m : SockMap) (key : String)
    (port : Option Nat) (ok : Bool) : Nat × List Nat × SockMap :=
  match port with
  | none => (nextSid, poller, m)
  | some p =>
    if p = 0 then (nextSid, poller, m)
    else if ok then (nextSid + 1, nextSid :: poller, ainsert m key ⟨nextSid, false⟩)
    else (nextSid + 1, poller, m)

/-- Model of `_setup_single_broker_sockets`: clear any residual
`_clients` entry for the key, tear down any existing sockets, then open
the five roles in order.  `ok` is the oracle for each role's connect
attempt succeeding. -/
def setup_single_broker_sockets (st : RouterState) (key : String) (cfg : BrokerConfig)
    (ok : PortRole → Bool) : RouterState :=
  let st0 : RouterState := { st with clients := aerase st.clients key }
  let st1 := teardown_single_broker_sockets st0 key
  let c1 := connectRole st1.nextSid st1.poller st1.sockets key cfg.admin_port (ok .admin)
  let c2 := connectRole c1.1 c1.2.1 st1.dataSockets key cfg.data_port (ok .data)
  let c3 := connectRole c2.1 c2.2.1 st1.liveSockets key cfg.live_port (ok .live)
  let c4 := connectRole c3.1 c3.2.1 st1.tradeSockets key cfg.trade_port (ok .trade)
  let c5 := connectRole c4.1 c4.2.1 st1.streamSockets key cfg.str_port (ok .str)
  { st1 with nextSid := c5.1, poller := c5.2.1, sockets := c1.2.2, dataSockets := c2.2.2,
             liveSockets := c3.2.2, tradeSockets := c4.2.2, streamSockets := c5.2.2 }

/-- Processing of one entry of the control queue inside `_receive_loop`
(lines 401-409). -/
def applyControlCommand (st : RouterState) (cmd : ControlCmd) (ok : PortRole → Bool) : RouterState :=
  match cmd with
  | .connect key cfg => setup_single_broker_sockets st key cfg ok
  | .disconnect key => teardown_single_broker_sockets st key

/-! ## Request/response correlator (`send_command_to_broker`, lines 135-194,
and `_send_message`, lines 103-133) -/

/-- Result dictionaries returned to the caller. -/
def errResult (m : String) : Jv :=
  .obj [("status", .str "ERROR"), ("message", .str m)]

/-- Resolution of the requested channel role from the two flags
(lines 145-149): `use_data_port` wins over `use_trade_port`. -/
def portTypeOf (use_data_port use_trade_port : Bool) : String :=
  if use_data_port then "DataPort" else if use_trade_port then "TradePort" else "AdminPort"

/-- The socket map `send_command_to_broker` consults for the resolved
port type (lines 151-155). -/
def commandPortMap (st : RouterState) (port_type : String) : SockMap :=
  if port_type = "DataPort" then st.dataSockets
  else if port_type = "TradePort" then st.tradeSockets
  else st.sockets

/-- Line 163, `request_id = request_id or f"..."` with the generated id
(line 163): an absent or empty caller-supplied id is replaced by the
generated one. -/
def effectiveRid (command broker_key : String) (now : Nat) (request_id? : Option String) : String :=
  match request_id? with
  | some r => if r = "" then command.toLower ++ "_" ++ broker_key ++ "_" ++ toString now else r
  | none => command.toLower ++ "_" ++ broker_key ++ "_" ++ toString now

/-- The REQUEST envelope built at lines 164-171 (`payload` is attached
only when truthy, since `if payload:` is false for `None` and `{}`). -/
def buildRequestMsg (command rid broker_key : String) (payload : Option Jv) : Jv :=
  let base := [("type", Jv.str "REQUEST"), ("command", Jv.str command),
               ("request_id", Jv.str rid), ("broker_key", Jv.str broker_key)]
  match payload with
  | some p => if p.truthy then .obj (base ++ [("payload", p)]) else .obj base
  | none => .obj base

/-- Outcome of `_send_message`.  The Python method returns `None` on every
path and catches `zmq.ZMQError` internally (lines 130-133), so the caller
never observes any of these outcomes; the model keeps them to record what
the transmission did.  `transportFails` is the oracle for the underlying
`socket.send` raising a transport error. -/
inductive SendMsgOutcome : Type where
  | notConfigured | socketClosed | transportError | sent
deriving DecidableEq

def send_message (st : RouterState) (_message_dict : Jv) (broker_key port_type : String)
    (transportFails : Bool) : SendMsgOutcome :=
  let target :=
    if port_type = "AdminPort" then some st.sockets
    else if port_type = "DataPort" then some st.dataSockets
    else if port_type = "LivePort" then some st.liveSockets
    else if port_type = "TradePort" then some st.tradeSockets
    else if port_type = "StrPort" then some st.streamSockets
    else none
  match target with
  | none => .notConfigured
  | some m =>
    match alookup m broker_key with
    | none => .notConfigured
    | some sock =>
      if sock.closed then .socketClosed
      else if transportFails then .transportError
      else .sent

/-- One thing that happens while `send_command_to_broker` awaits its
one-shot event: either the receive loop processes an inbound envelope, or
`stop` force-sets every pending event (lines 72-74). -/
inductive WaitEvt : Type where
  | msg (m : Jv) (conn : String)
  | signalAll

/-- Whether processing an inbound envelope resolves the pending request
`rid`: it must be a RESPONSE carrying exactly that (truthy) request id. -/
abbrev MsgResolves (m : Jv) (rid : String) : Prop :=
  m.getStr? "type" = some "RESPONSE" ∧ m.getStr? "request_id" = some rid ∧ rid ≠ ""

def WaitEvt.Resolves : WaitEvt → String → Prop
  | .signalAll, _ => True
  | .msg m _, rid => MsgResolves m rid

instance : (e : WaitEvt) → (rid : String) → Decidable (e.Resolves rid)
  | .signalAll, _ => .isTrue trivial
  | .msg m _, rid => inferInstanceAs (Decidable (MsgResolves m rid))

def applyWaitEvt (st : RouterState) : WaitEvt → RouterState
  | .msg m conn => process_message st m conn
  | .signalAll => { st with responseEvents := st.responseEvents.map (fun p => (p.1, true)) }

/-- The `asyncio.wait_for(event.wait(), timeout=5.0)` of line 178: apply
the events of the wait window in order until the request's one-shot event
is set; if the window ends without that, the wait times out.  Returns the
state after the processed prefix and whether the event was observed set. -/
def awaitEvent (st : RouterState) (rid : String) : List WaitEvt → RouterState × Bool
  | [] => (st, false)
  | e :: rest =>
    let st' := applyWaitEvt st e
    if alookup st'.responseEvents rid = some true then (st', true)
    else awaitEvent st' rid rest

/-- Which control path `send_command_to_broker` returned through.  The
two `early` paths return before a Pending Request is created and without
suspending; `timedOut` is the path that waited out the full 5-unit
timeout (line 186). -/
inductive SendPath : Type where
  | earlyNoKey | earlyNoSocket | gotResponse | responseMissing | timedOut
deriving DecidableEq

structure SendOutput : Type where
  result : Jv
  state : RouterState
  path : SendPath

/-- Model of `send_command_to_broker` (lines 135-194).  `now` is
`int(time.time())`, `transportFails` the transmission oracle, and
`waitEvents` what happens during the await window. -/
def send_command_to_broker (st : RouterState) (broker_key command : String)
    (payload : Option Jv) (request_id? : Option String)
    (use_data_port use_trade_port : Bool) (now : Nat)
    (transportFails : Bool) (waitEvents : List WaitEvt) : SendOutput :=
  if broker_key = "" then
    ⟨errResult "broker_key não fornecida.", st, .earlyNoKey⟩
  else
    let port_type := portTypeOf use_data_port use_trade_port
    let noSock : SendOutput :=
      ⟨errResult ("Corretora " ++ broker_key ++ " não conectada ou socket " ++
          port_type ++ " fechado."), st, .earlyNoSocket⟩
    match alookup (commandPortMap st port_type) broker_key with
    | none => noSock
    | some sock =>
      if sock.closed then noSock
      else
        let rid := effectiveRid command broker_key now request_id?
        let message := buildRequestMsg command rid broker_key payload
        let st1 : RouterState := { st with responseEvents := ainsert st.responseEvents rid false }
        let _txOutcome := send_message st1 message broker_key port_type transportFails
        let ar := awaitEvent st1 rid waitEvents
        let finallyCleanup : RouterState → RouterState := fun s =>
          if (alookup s.responseEvents rid).isSome then
            { s with responseEvents := aerase s.responseEvents rid }
          else s
        if ar.2 then
          match alookup ar.1.responses rid with
          | some resp =>
            ⟨resp, finallyCleanup { ar.1 with responses := aerase ar.1.responses rid }, .gotResponse⟩
          | none =>
            ⟨errResult "Resposta não recebida", finallyCleanup ar.1, .responseMissing⟩
        else
          ⟨errResult "Timeout na resposta", finallyCleanup ar.1, .timedOut⟩

/-! ## Global shutdown (`stop`, lines 68-99) -/

/-- The union of the keys of the five socket maps (line 77-81). -/
def allBrokerKeys (st : RouterState) : List String :=
  (st.sockets.map Prod.fst ++ st.dataSockets.map Prod.fst ++ st.liveSockets.map Prod.fst ++
    st.tradeSockets.map Prod.fst ++ st.streamSockets.map Prod.fst).dedup

structure StopOutput : Type where
  state : RouterState
  /-- The bound (in time units) of the wait for the control queue to drain
  (`asyncio.wait_for(..., timeout=2.0)`, line 90). -/
  drainTimeoutUnits : Nat
  /-- Whether `context.term()` was reached (line 98). -/
  contextTerminated : Bool

/-- Model of `stop`: clear the running flag, force-set every pending
response event, enqueue a DISCONNECT for every active broker key that is
registered in `_clients`, wait (at most 2 units) for the queue to drain,
then terminate the context. -/
def stop (st : RouterState) : StopOutput :=
  let st1 : RouterState :=
    { st with running := false,
              responseEvents := st.responseEvents.map (fun p => (p.1, true)) }
  let toDisconnect := (allBrokerKeys st1).filter (fun k => (alookup st1.clients k).isSome)
  let st2 : RouterState :=
    { st1 with controlQueue := st1.controlQueue ++ toDisconnect.map ControlCmd.disconnect }
  ⟨st2, 2, true⟩

/-! ## Helper lemmas -/

theorem teardownOne_lookup (p : List Nat) (m : SockMap) (k : String) :
    alookup (teardownOne p m k).2 k = none := by
  unfold teardownOne
  cases h : alookup m k with
  | none => simpa using h
  | some sock =>
    by_cases hc : sock.closed <;> simp [hc, alookup_aerase_self]

theorem teardownOne_of_none (p : List Nat) (m : SockMap) (k : String)
    (h : alookup m k = none) : teardownOne p m k = (p, m) := by
  unfold teardownOne
  rw [h]

theorem teardown_clients (st : RouterState) (k : String) :
    (teardown_single_broker_sockets st k).clients = st.clients := rfl

theorem setup_clients (st : RouterState) (k : String) (cfg : BrokerConfig)
    (ok : PortRole → Bool) :
    (setup_single_broker_sockets st k cfg ok).clients = aerase st.clients k := rfl

theorem forward_responseEvents (st : RouterState) (c : String) (m : Jv) :
    (forward st c m).responseEvents = st.responseEvents := by
  unfold forward; split <;> rfl

theorem forward_responses (st : RouterState) (c : String) (m : Jv) :
    (forward st c m).responses = st.responses := by
  unfold forward; split <;> rfl

theorem forward_clients (st : RouterState) (c : String) (m : Jv) :
    (forward st c m).clients = st.clients := by
  unfold forward; split <;> rfl

/-- C10 (confirmed): calling `send_command_to_broker` with an empty
(falsy) broker key returns the ERROR result immediately — before port
resolution, socket lookup, transmission or Pending Request creation —
and leaves the router state unchanged. -/
theorem c10_empty_broker_key_sync_error (st : RouterState) (command : String)
    (payload : Option Jv) (request_id? : Option String)
    (use_data_port use_trade_port : Bool) (now : Nat)
    (transportFails : Bool) (waitEvents : List WaitEvt) :
    send_command_to_broker st "" command payload request_id? use_data_port use_trade_port
        now transportFails waitEvents =
      ⟨errResult "broker_key não fornecida.", st, .earlyNoKey⟩ := rfl

/-- C2 (confirmed): sending to a broker key whose socket for the resolved
channel role is absent or closed returns the ERROR result synchronously,
without suspending, and the router state is returned unchanged — in
particular no Pending Request entry is created. -/
theorem c2_unavailable_socket_sync_error (st : RouterState) (broker_key command : String)
    (payload : Option Jv) (request_id? : Option String)
    (use_data_port use_trade_port : Bool) (now : Nat)
    (transportFails : Bool) (waitEvents : List WaitEvt)
    (hbk : broker_key ≠ "")
    (hsock : ∀ s, alookup (commandPortMap st (portTypeOf use_data_port use_trade_port))
        broker_key = some s → s.closed = true) :
    send_command_to_broker st broker_key command payload request_id? use_data_port
        use_trade_port now transportFails waitEvents =
      ⟨errResult ("Corretora " ++ broker_key ++ " não conectada ou socket " ++
          portTypeOf use_data_port use_trade_port ++ " fechado."), st, .earlyNoSocket⟩ := by
  cases h : alookup (commandPortMap st (portTypeOf use_data_port use_trade_port)) broker_key with
  | none => simp only [send_command_to_broker, if_neg hbk, h]
  | some s => simp only [send_command_to_broker, if_neg hbk, h, hsock s h, if_true]

/-- C2 witness: the spec's own example — sending PING to the unknown key
GHOST-1 on the Admin channel of a fresh router is a synchronous error. -/
theorem c2_unavailable_socket_sync_error_witness :
    send_command_to_broker emptyRouter "GHOST-1" "PING" none none false false 0 false [] =
      ⟨errResult ("Corretora " ++ "GHOST-1" ++ " não conectada ou socket " ++
          portTypeOf false false ++ " fechado."), emptyRouter, .earlyNoSocket⟩ :=
  c2_unavailable_socket_sync_error emptyRouter "GHOST-1" "PING" none none false false 0 false []
    (by decide) (fun s h => Option.noConfusion h)

/-- After a teardown, none of the five role maps holds an entry for the
torn-down key. -/
theorem teardown_absent (st : RouterState) (key : String) :
    alookup (teardown_single_broker_sockets st key).sockets key = none ∧
    alookup (teardown_single_broker_sockets st key).dataSockets key = none ∧
    alookup (teardown_single_broker_sockets st key).liveSockets key = none ∧
    alookup (teardown_single_broker_sockets st key).tradeSockets key = none ∧
    alookup (teardown_single_broker_sockets st key).streamSockets key = none :=
  ⟨teardownOne_lookup _ _ _, teardownOne_lookup _ _ _, teardownOne_lookup _ _ _,
   teardownOne_lookup _ _ _, teardownOne_lookup _ _ _⟩

/-- C4 (confirmed): `_teardown_single_broker_sockets` is idempotent — it
removes the key's entry from every role map (skipping roles already
absent, and never raising: the model is a total function because every
exception in the source is caught), and running it a second time on the
same key is a no-op, leaving the state of the first run unchanged. -/
theorem c4_teardown_idempotent (st : RouterState) (key : String) :
    teardown_single_broker_sockets (teardown_single_broker_sockets st key) key =
      teardown_single_broker_sockets st key ∧
    alookup (teardown_single_broker_sockets st key).sockets key = none ∧
    alookup (teardown_single_broker_sockets st key).dataSockets key = none ∧
    alookup (teardown_single_broker_sockets st key).liveSockets key = none ∧
    alookup (teardown_single_broker_sockets st key).tradeSockets key = none ∧
    alookup (teardown_single_broker_sockets st key).streamSockets key = none := by
  refine ⟨?_, teardown_absent st key⟩
  have habs := teardown_absent st key
  set T := teardown_single_broker_sockets st key with hT
  obtain ⟨h1, h2, h3, h4, h5⟩ := habs
  show teardown_single_broker_sockets T key = T
  unfold teardown_single_broker_sockets
  simp only [teardownOne_of_none _ _ _ h1, teardownOne_of_none _ _ _ h2,
      teardownOne_of_none _ _ _ h3, teardownOne_of_none _ _ _ h4,
      teardownOne_of_none _ _ _ h5]

/-- The REGISTER envelope a client sends for a broker key. -/
def registerMsg (key : String) : Jv :=
  .obj [("type", .str "SYSTEM"), ("event", .str "REGISTER"), ("broker_key", .str key)]

/-- C3 (confirmed): `_setup_single_broker_sockets` removes any Client
Registry entry for its key (and performs the teardown) before opening any
socket — its `_clients` table is exactly the previous one with the key
erased — so after the sequence register(key), disconnect(key),
reconnect(key), and before any new registration envelope is processed,
the Client Registry contains no entry for the key. -/
theorem c3_setup_clears_registry (st : RouterState) (key : String) (cfg : BrokerConfig)
    (ok : PortRole → Bool) (conn : String) :
    (setup_single_broker_sockets st key cfg ok).clients = aerase st.clients key ∧
    alookup (applyControlCommand
        (applyControlCommand (process_message st (registerMsg key) conn)
          (.disconnect key) ok)
        (.connect key cfg) ok).clients key = none := by
  refine ⟨setup_clients st key cfg ok, ?_⟩
  show alookup (setup_single_broker_sockets _ key cfg ok).clients key = none
  rw [setup_clients]
  exact alookup_aerase_self _ _

/-- C5 (confirmed): the frame-repair step adds exactly the missing
delimiter(s) — nothing when the text is already brace-delimited, the
closing brace when only it is missing, the opening brace when only it is
missing, both otherwise; the two byte sequences of the spec decode to the
map with the single field type → EVENT; and a frame that still fails to
decode after repair is dropped, leaving the receive step's state
unchanged (the loop continues). -/
theorem c5_frame_repair_and_decode :
    decodeFrame "\x7b\"type\":\"EVENT\"" = some (.obj [("type", .str "EVENT")]) ∧
    decodeFrame "\"type\":\"EVENT\"\x7d" = some (.obj [("type", .str "EVENT")]) ∧
    (∀ s, strStartsWith s obStr = true → strEndsWith s cbStr = true →
      repairFrame s = s) ∧
    (∀ s, strStartsWith s obStr = true → strEndsWith s cbStr = false →
      repairFrame s = s ++ cbStr) ∧
    (∀ s, strStartsWith s obStr = false → strEndsWith (obStr ++ s) cbStr = true →
      repairFrame s = obStr ++ s) ∧
    (∀ s, strStartsWith s obStr = false → strEndsWith (obStr ++ s) cbStr = false →
      repairFrame s = (obStr ++ s) ++ cbStr) ∧
    (∀ st bk raw, decodeFrame raw = none → receiveStep st bk raw = st) := by
  refine ⟨rfl, rfl, ?_, ?_, ?_, ?_, ?_⟩
  · intro s h1 h2; simp [repairFrame, h1, h2]
  · intro s h1 h2; simp [repairFrame, h1, h2]
  · intro s h1 h2; simp [repairFrame, h1, h2]
  · intro s h1 h2; simp [repairFrame, h1, h2]
  · intro st bk raw h
    unfold receiveStep
    rw [h]

/-- Processing an envelope that does not resolve the pending request
`rid` leaves the one-shot event entry for `rid` unchanged. -/
theorem process_message_preserves_event (st : RouterState) (m : Jv) (conn rid : String)
    (h : ¬ MsgResolves m rid) :
    alookup (process_message st m conn).responseEvents rid =
      alookup st.responseEvents rid := by
  simp only [process_message]
  split
  · split
    · split
      · rfl
      · rw [forward_responseEvents]
    · rfl
  · split
    · rw [forward_responseEvents]
    · split
      · rw [forward_responseEvents]
        split
        · rename_i rid' heq
          split
          · rename_i hcond
            have hne : rid' ≠ rid := by
              intro e
              exact h ⟨hcond.2, by rw [heq, e], e ▸ hcond.1⟩
            split
            · exact alookup_ainsert_ne _ _ _ _ hne
            · rfl
          · rfl
        · rfl
      · rw [forward_responseEvents]

/-- Processing an envelope that does not resolve the pending request
`rid` leaves the stored-response entry for `rid` unchanged. -/
theorem process_message_preserves_response (st : RouterState) (m : Jv) (conn rid : String)
    (h : ¬ MsgResolves m rid) :
    alookup (process_message st m conn).responses rid =
      alookup st.responses rid := by
  simp only [process_message]
  split
  · split
    · split
      · rfl
      · rw [forward_responses]
    · rfl
  · split
    · rw [forward_responses]
    · split
      · rw [forward_responses]
        split
        · rename_i rid' heq
          split
          · rename_i hcond
            have hne : rid' ≠ rid := by
              intro e
              exact h ⟨hcond.2, by rw [heq, e], e ▸ hcond.1⟩
            split
            · exact alookup_ainsert_ne _ _ _ _ hne
            · exact alookup_ainsert_ne _ _ _ _ hne
          · rfl
        · rfl
      · rw [forward_responses]

/-- If nothing in the wait window resolves `rid`, the await runs through
every event, never observes the one-shot event set (it stays exactly as
registered, unset), keeps the response slot for `rid` empty, and reports
a timeout. -/
theorem awaitEvent_timeout (rid : String) (evts : List WaitEvt) :
    ∀ st : RouterState, alookup st.responseEvents rid = some false →
    alookup st.responses rid = none →
    (∀ e ∈ evts, ¬ e.Resolves rid) →
    (awaitEvent st rid evts).2 = false ∧
    alookup (awaitEvent st rid evts).1.responseEvents rid = some false ∧
    alookup (awaitEvent st rid evts).1.responses rid = none := by
  induction evts with
  | nil =>
    intro st h1 h2 _
    exact ⟨rfl, h1, h2⟩
  | cons e rest ih =>
    intro st h1 h2 hall
    have he : ¬ e.Resolves rid := hall e (by simp)
    cases e with
    | signalAll => exact absurd trivial he
    | msg m c =>
      have hm : ¬ MsgResolves m rid := he
      have hev := process_message_preserves_event st m c rid hm
      have hre := process_message_preserves_response st m c rid hm
      have hnotset : alookup (process_message st m c).responseEvents rid = some false :=
        hev.trans h1
      simp only [awaitEvent, applyWaitEvt, hnotset]
      have : ¬ (some false = some true) := by simp
      rw [if_neg this]
      exact ih _ hnotset (hre.trans h2) (fun e' he' => hall e' (List.mem_cons_of_mem _ he'))

/-- Common shape of a `send_command_to_broker` call that times out: the
broker key is non-empty, the socket for the resolved role is open, the
response slot for the effective request id is empty at call time, and
nothing in the wait window resolves the request.  The call returns the
timeout ERROR result through the timed-out path and afterwards neither
`_response_events` nor `_responses` holds an entry for the request id. -/
theorem send_timeout_spec (st : RouterState) (broker_key command : String)
    (payload : Option Jv) (request_id? : Option String)
    (use_data_port use_trade_port : Bool) (now : Nat)
    (transportFails : Bool) (waitEvents : List WaitEvt)
    (hbk : broker_key ≠ "") (sock : Sock)
    (hs : alookup (commandPortMap st (portTypeOf use_data_port use_trade_port)) broker_key =
      some sock)
    (hopen : sock.closed = false)
    (hfresh : alookup st.responses (effectiveRid command broker_key now request_id?) = none)
    (hnores : ∀ e ∈ waitEvents,
      ¬ e.Resolves (effectiveRid command broker_key now request_id?)) :
    (send_command_to_broker st broker_key command payload request_id? use_data_port
        use_trade_port now transportFails waitEvents).result = errResult "Timeout na resposta" ∧
    (send_command_to_broker st broker_key command payload request_id? use_data_port
        use_trade_port now transportFails waitEvents).path = .timedOut ∧
    alookup (send_command_to_broker st broker_key command payload request_id? use_data_port
        use_trade_port now transportFails waitEvents).state.responseEvents
      (effectiveRid command broker_key now request_id?) = none ∧
    alookup (send_command_to_broker st broker_key command payload request_id? use_data_port
        use_trade_port now transportFails waitEvents).state.responses
      (effectiveRid command broker_key now request_id?) = none := by
  have haw := awaitEvent_timeout (effectiveRid command broker_key now request_id?) waitEvents
    { st with responseEvents :=
        ainsert st.responseEvents (effectiveRid command broker_key now request_id?) false }
    (alookup_ainsert_self _ _ _) hfresh hnores
  simp only [send_command_to_broker, if_neg hbk, hs, hopen, Bool.false_eq_true, if_false,
    haw.1, haw.2.1, Option.isSome_some, if_true]
  exact ⟨trivial, trivial, alookup_aerase_self _ _, haw.2.2⟩

/-- A stale RESPONSE envelope for request id r1, as stored by line 246
when no request with that id is pending. -/
def c1StaleResponse : Jv :=
  .obj [("type", .str "RESPONSE"), ("request_id", .str "r1"), ("status", .str "OK")]

/-- A router with one open Admin socket for broker key B. -/
def stOpenB : RouterState :=
  { emptyRouter with
      sockets := [("B", ⟨0, false⟩)]
      poller := [0]
      nextSid := 1 }

/-- State `stOpenB` with a stale response for request id r1 already stored. -/
def stStaleB : RouterState :=
  { stOpenB with responses := [("r1", c1StaleResponse)] }

/-- C1 counterexample: with an open Admin socket for broker B and a stale
entry for request id r1 already sitting in `_responses` (left there by a
late response, which line 246 stores unconditionally), a call that times
out returns the ERROR result — but afterwards `_responses` still contains
the r1 entry, contradicting the claim that neither table contains an
entry for the request id after the call returns. -/
theorem c1_counterexample :
    let out := send_command_to_broker stStaleB "B" "PING" none (some "r1") false false 0 false []
    alookup stStaleB.sockets "B" = some ⟨0, false⟩ ∧
    out.result = errResult "Timeout na resposta" ∧
    out.path = .timedOut ∧
    alookup out.state.responseEvents "r1" = none ∧
    alookup out.state.responses "r1" = some c1StaleResponse :=
  ⟨rfl, rfl, rfl, rfl, rfl⟩

/-- C1 (corrected): a call of `send_command_to_broker` on a broker key
whose socket for the requested channel role is open, **whose effective
request id has no pre-existing entry in the response slot table**, and
during whose 5-unit wait no RESPONSE carrying the matching request id is
processed, returns the timeout ERROR result, and immediately afterwards
neither `_response_events` nor `_responses` contains an entry for that
request id.  (The freshness precondition is what the counterexample
forces: a stale `_responses` entry from an earlier reuse of the id
survives the timeout path untouched.) -/
theorem c1_timeout_no_pending_left (st : RouterState) (broker_key command : String)
    (payload : Option Jv) (request_id? : Option String)
    (use_data_port use_trade_port : Bool) (now : Nat)
    (transportFails : Bool) (waitEvents : List WaitEvt)
    (hbk : broker_key ≠ "") (sock : Sock)
    (hs : alookup (commandPortMap st (portTypeOf use_data_port use_trade_port)) broker_key =
      some sock)
    (hopen : sock.closed = false)
    (hfresh : alookup st.responses (effectiveRid command broker_key now request_id?) = none)
    (hnores : ∀ e ∈ waitEvents,
      ¬ e.Resolves (effectiveRid command broker_key now request_id?)) :
    (send_command_to_broker st broker_key command payload request_id? use_data_port
        use_trade_port now transportFails waitEvents).result = errResult "Timeout na resposta" ∧
    (send_command_to_broker st broker_key command payload request_id? use_data_port
        use_trade_port now transportFails waitEvents).path = .timedOut ∧
    alookup (send_command_to_broker st broker_key command payload request_id? use_data_port
        use_trade_port now transportFails waitEvents).state.responseEvents
      (effectiveRid command broker_key now request_id?) = none ∧
    alookup (send_command_to_broker st broker_key command payload request_id? use_data_port
        use_trade_port now transportFails waitEvents).state.responses
      (effectiveRid command broker_key now request_id?) = none :=
  send_timeout_spec st broker_key command payload request_id? use_data_port use_trade_port
    now transportFails waitEvents hbk sock hs hopen hfresh hnores

/-- C1 witness: a fresh request id on an open socket with an empty wait
window times out with no Pending Request left behind. -/
theorem c1_timeout_no_pending_left_witness :
    (send_command_to_broker stOpenB "B" "PING" none (some "rq") false false 0 false []).result =
      errResult "Timeout na resposta" ∧
    (send_command_to_broker stOpenB "B" "PING" none (some "rq") false false 0 false []).path =
      .timedOut ∧
    alookup (send_command_to_broker stOpenB "B" "PING" none (some "rq") false false 0 false
        []).state.responseEvents (effectiveRid "PING" "B" 0 (some "rq")) = none ∧
    alookup (send_command_to_broker stOpenB "B" "PING" none (some "rq") false false 0 false
        []).state.responses (effectiveRid "PING" "B" 0 (some "rq")) = none :=
  c1_timeout_no_pending_left stOpenB "B" "PING" none (some "rq") false false 0 false []
    (by decide) ⟨0, false⟩ rfl rfl rfl (fun e he => absurd he (List.not_mem_nil e))

/-- C7 counterexample: with an open socket and a transport error on the
underlying send (`transportFails = true`), the call does not return
synchronously — it runs through the timed-out path, returning the timeout
ERROR only after the full 5-unit correlation wait, contradicting the
claim that the transport error is returned synchronously. -/
theorem c7_counterexample :
    let out := send_command_to_broker stOpenB "B" "PING" none (some "r7") false false 0 true []
    alookup stOpenB.sockets "B" = some ⟨0, false⟩ ∧
    out.path = .timedOut ∧
    out.result = errResult "Timeout na resposta" :=
  ⟨rfl, rfl, rfl⟩

/-- C7 (corrected): a transport error raised by the underlying socket
transmission is caught and logged inside `_send_message` and never
surfaces to `send_command_to_broker` — the call's outcome is identical to
the one with a successful transmission; in particular, when no matching
response arrives the caller gets the ERROR result only after the full
5-unit correlation timeout (the timed-out path), and no Pending Request
entry is leaked after the call returns. -/
theorem c7_transport_error_swallowed (st : RouterState) (broker_key command : String)
    (payload : Option Jv) (request_id? : Option String)
    (use_data_port use_trade_port : Bool) (now : Nat) (waitEvents : List WaitEvt)
    (hbk : broker_key ≠ "") (sock : Sock)
    (hs : alookup (commandPortMap st (portTypeOf use_data_port use_trade_port)) broker_key =
      some sock)
    (hopen : sock.closed = false)
    (hfresh : alookup st.responses (effectiveRid command broker_key now request_id?) = none)
    (hnores : ∀ e ∈ waitEvents,
      ¬ e.Resolves (effectiveRid command broker_key now request_id?)) :
    send_command_to_broker st broker_key command payload request_id? use_data_port
        use_trade_port now true waitEvents =
      send_command_to_broker st broker_key command payload request_id? use_data_port
        use_trade_port now false waitEvents ∧
    (send_command_to_broker st broker_key command payload request_id? use_data_port
        use_trade_port now true waitEvents).result = errResult "Timeout na resposta" ∧
    (send_command_to_broker st broker_key command payload request_id? use_data_port
        use_trade_port now true waitEvents).path = .timedOut ∧
    alookup (send_command_to_broker st broker_key command payload request_id? use_data_port
        use_trade_port now true waitEvents).state.responseEvents
      (effectiveRid command broker_key now request_id?) = none := by
  have h := send_timeout_spec st broker_key command payload request_id? use_data_port
    use_trade_port now true waitEvents hbk sock hs hopen hfresh hnores
  exact ⟨rfl, h.1, h.2.1, h.2.2.1⟩

/-- C7 witness: the swallowed transport error at a concrete input. -/
theorem c7_transport_error_swallowed_witness :
    send_command_to_broker stOpenB "B" "PING" none (some "rw7") false false 0 true [] =
      send_command_to_broker stOpenB "B" "PING" none (some "rw7") false false 0 false [] ∧
    (send_command_to_broker stOpenB "B" "PING" none (some "rw7") false false 0 true
        []).result = errResult "Timeout na resposta" ∧
    (send_command_to_broker stOpenB "B" "PING" none (some "rw7") false false 0 true
        []).path = .timedOut ∧
    alookup (send_command_to_broker stOpenB "B" "PING" none (some "rw7") false false 0 true
        []).state.responseEvents (effectiveRid "PING" "B" 0 (some "rw7")) = none :=
  c7_transport_error_swallowed stOpenB "B" "PING" none (some "rw7") false false 0 []
    (by decide) ⟨0, false⟩ rfl rfl rfl (fun e he => absurd he (List.not_mem_nil e))

/-- C5 witness: a well-delimited frame is left untouched by repair, and a
frame that is still not JSON after repair is dropped with the state
unchanged. -/
theorem c5_frame_repair_and_decode_witness :
    repairFrame "\x7b\"a\":1\x7d" = "\x7b\"a\":1\x7d" ∧
    receiveStep emptyRouter "BROKER-1" "garbage" = emptyRouter :=
  ⟨c5_frame_repair_and_decode.2.2.1 "\x7b\"a\":1\x7d" (by decide) (by decide),
   c5_frame_repair_and_decode.2.2.2.2.2.2 emptyRouter "BROKER-1" "garbage" rfl⟩

/-- A registry with two registered clients, used to exercise the
UNREGISTER resolution rules. -/
def stTwoClients : RouterState :=
  { emptyRouter with clients := [("A", "conn1"), ("B", "conn2")] }

/-- C6 counterexample: an UNREGISTER arriving on connection conn1 but
claiming broker key B (present in the registry yet mapped to conn2, so
inconsistent) removes nothing and forwards a null key — even though the
reverse lookup of conn1 that the claim promises as fallback would have
resolved (and removed) A. -/
theorem c6_counterexample :
    let m : Jv := .obj [("type", .str "SYSTEM"), ("event", .str "UNREGISTER"),
      ("broker_key", .str "B")]
    let st' := process_message stTwoClients m "conn1"
    (reverseLookupRemove stTwoClients.clients "conn1").1 = some "A" ∧
    st'.clients = [("A", "conn1"), ("B", "conn2")] ∧
    st'.handlerLog = [("conn1", unregNotification none "conn1")] :=
  ⟨rfl, rfl, rfl⟩

/-- C6 (corrected): for a SYSTEM/UNREGISTER envelope the broker key is
resolved by exact match when the claimed key is present (non-empty) and
consistent with the Client Registry (mapped to this connection
identifier); the reverse lookup of the connection identifier happens
**only when no key is claimed** (field absent or empty) — a claimed key
that is present but inconsistent removes nothing; in every case the
synthesized INTERNAL/CLIENT_UNREGISTERED envelope carrying the resolved
key (or null) is forwarded to the message handler. -/
theorem c6_unregister_resolution (st : RouterState) (m : Jv) (conn : String)
    (ht : m.getStr? "type" = some "SYSTEM")
    (he : m.getStr? "event" = some "UNREGISTER")
    (hh : st.handlerSet = true) :
    (∀ bkm, m.getStr? "broker_key" = some bkm → bkm ≠ "" →
      alookup st.clients bkm = some conn →
      (process_message st m conn).clients = aerase st.clients bkm ∧
      (process_message st m conn).handlerLog =
        st.handlerLog ++ [(conn, unregNotification (some bkm) conn)]) ∧
    (∀ bkm, m.getStr? "broker_key" = some bkm → bkm ≠ "" →
      alookup st.clients bkm ≠ some conn →
      (process_message st m conn).clients = st.clients ∧
      (process_message st m conn).handlerLog =
        st.handlerLog ++ [(conn, unregNotification none conn)]) ∧
    (m.getStr? "broker_key" = none ∨ m.getStr? "broker_key" = some "" →
      (process_message st m conn).clients = (reverseLookupRemove st.clients conn).2 ∧
      (process_message st m conn).handlerLog =
        st.handlerLog ++ [(conn, unregNotification (reverseLookupRemove st.clients conn).1 conn)]) := by
  refine ⟨?_, ?_, ?_⟩
  · intro bkm hb hne hcons
    simp only [process_message, ht, he, hb]
    simp +decide [hne, hcons, forward, hh]
  · intro bkm hb hne hncons
    simp only [process_message, ht, he, hb]
    simp +decide [hne, hncons, forward, hh]
  · intro hb
    cases hb with
    | inl hb =>
      simp only [process_message, ht, he, hb]
      simp +decide [forward, hh]
    | inr hb =>
      simp only [process_message, ht, he, hb]
      simp +decide [forward, hh]

/-- C6 witness: a consistent UNREGISTER for key A on connection conn1
removes exactly that mapping and forwards the resolved key. -/
theorem c6_unregister_resolution_witness :
    (process_message stTwoClients (.obj [("type", .str "SYSTEM"),
        ("event", .str "UNREGISTER"), ("broker_key", .str "A")]) "conn1").clients =
      aerase stTwoClients.clients "A" ∧
    (process_message stTwoClients (.obj [("type", .str "SYSTEM"),
        ("event", .str "UNREGISTER"), ("broker_key", .str "A")]) "conn1").handlerLog =
      stTwoClients.handlerLog ++ [("conn1", unregNotification (some "A") "conn1")] :=
  (c6_unregister_resolution stTwoClients (.obj [("type", .str "SYSTEM"),
      ("event", .str "UNREGISTER"), ("broker_key", .str "A")]) "conn1" rfl rfl rfl).1
    "A" rfl (by decide) (by decide)

/-- C8 counterexample: a RESPONSE whose request id x matches no pending
request (the one-shot event table is empty) is forwarded — but its
payload is stored in the response slot table under x (line 246 stores
unconditionally), contradicting the claim that no stored correlation
data results from a stale response. -/
theorem c8_counterexample :
    let m : Jv := .obj [("type", .str "RESPONSE"), ("request_id", .str "x"),
      ("status", .str "OK")]
    let st' := process_message emptyRouter m "connZ"
    alookup emptyRouter.responseEvents "x" = none ∧
    alookup st'.responses "x" = some m ∧
    st'.handlerLog = [("connZ", m)] :=
  ⟨rfl, rfl, rfl⟩

/-- C8 (corrected): a RESPONSE envelope whose (non-empty) request id
matches no pending request is forwarded to the external message handler
and neither creates nor resolves any one-shot event entry — the event
table is unchanged — but, contrary to the claim, its payload **is**
stored in the response slot table under its request id (and nothing ever
removes it, since only a pending caller pops that table). -/
theorem c8_stale_response_stored (st : RouterState) (m : Jv) (conn rid : String)
    (ht : m.getStr? "type" = some "RESPONSE")
    (hr : m.getStr? "request_id" = some rid)
    (hne : rid ≠ "")
    (hnp : alookup st.responseEvents rid = none) :
    (process_message st m conn).responseEvents = st.responseEvents ∧
    (process_message st m conn).responses = ainsert st.responses rid m ∧
    (process_message st m conn).clients = st.clients ∧
    (st.handlerSet = true →
      (process_message st m conn).handlerLog = st.handlerLog ++ [(conn, m)]) := by
  simp only [process_message, ht, hr]
  simp +decide [hne, hnp, forward]
  refine ⟨?_, ?_, ?_, ?_⟩
  · split <;> rfl
  · split <;> rfl
  · split <;> rfl
  · intro hh
    simp [hh]

/-- C8 witness: a stale RESPONSE at a concrete input. -/
theorem c8_stale_response_stored_witness :
    (process_message emptyRouter (.obj [("type", .str "RESPONSE"),
        ("request_id", .str "y"), ("status", .str "OK")]) "connY").responseEvents =
      emptyRouter.responseEvents ∧
    (process_message emptyRouter (.obj [("type", .str "RESPONSE"),
        ("request_id", .str "y"), ("status", .str "OK")]) "connY").responses =
      ainsert emptyRouter.responses "y" (.obj [("type", .str "RESPONSE"),
        ("request_id", .str "y"), ("status", .str "OK")]) :=
  ⟨(c8_stale_response_stored emptyRouter (.obj [("type", .str "RESPONSE"),
      ("request_id", .str "y"), ("status", .str "OK")]) "connY" "y" rfl rfl (by decide) rfl).1,
   (c8_stale_response_stored emptyRouter (.obj [("type", .str "RESPONSE"),
      ("request_id", .str "y"), ("status", .str "OK")]) "connY" "y" rfl rfl (by decide) rfl).2.1⟩

/-- C9 counterexample: broker key B has an open Admin channel but is not
registered in `_clients`; `stop` enqueues no DISCONNECT at all (the
control queue stays empty), contradicting the claim that a DISCONNECT is
enqueued for every key with an open channel in any socket map. -/
theorem c9_counterexample :
    "B" ∈ allBrokerKeys stOpenB ∧
    (stop stOpenB).state.controlQueue = [] :=
  ⟨by decide, rfl⟩

/-- C9 (corrected): on `stop`, a DISCONNECT is enqueued for every broker
key that has a channel in one of the five socket maps **and is currently
registered in the Client Registry** (`if broker_key in self._clients`,
line 84); the queue drain is awaited with the bounded 2-unit timeout
before the transport context is released. -/
theorem c9_stop_enqueues_registered (st : RouterState) (key : String)
    (hopen : key ∈ allBrokerKeys st)
    (hreg : (alookup st.clients key).isSome = true) :
    ControlCmd.disconnect key ∈ (stop st).state.controlQueue ∧
    (stop st).drainTimeoutUnits = 2 ∧
    (stop st).contextTerminated = true := by
  refine ⟨?_, rfl, rfl⟩
  simp only [stop]
  refine List.mem_append_right _ ?_
  refine List.mem_map.mpr ⟨key, List.mem_filter.mpr ⟨hopen, hreg⟩, rfl⟩

/-- A router with broker key B both connected and registered. -/
def stRegisteredB : RouterState :=
  { stOpenB with clients := [("B", "connB")] }

/-- C9 witness: a registered, connected broker key gets its DISCONNECT
enqueued, with the 2-unit drain bound and the context released. -/
theorem c9_stop_enqueues_registered_witness :
    ControlCmd.disconnect "B" ∈ (stop stRegisteredB).state.controlQueue ∧
    (stop stRegisteredB).drainTimeoutUnits = 2 ∧
    (stop stRegisteredB).contextTerminated = true :=
  c9_stop_enqueues_registered stRegisteredB "B" (by decide) (by decide)
